import Mathlib

/-!
Shallow embedding of the StreamFlow player (React HLS player component and its
App shell) and proofs about its state machine.

The embedding models:
- the Shell (`App.tsx`): the address field text and the active address handed
  to the player, with the form-submit handler `handleUrlSubmit`;
- the Player (`HlsPlayer`): its React state as the structure `PlayerState`,
  its side effects on the collaborators (the hls.js client and the native
  video element) as an explicit command list `List PlayerCmd`, and each event
  handler / user action as a pure function on `PlayerState`.

JavaScript strings are Lean `String`s; the JS string operations used by the
source (`toLowerCase`, `includes`, `trim`) are embedded as structurally
recursive functions on the underlying character lists so that they evaluate
by `decide`. JS numbers that carry media times/volumes are `ℚ`; the special
value `Infinity` reported as a media duration is the dedicated constructor
`MediaDuration.infinite`.
-/

namespace StreamFlow

/-- Embedding of `List`-level substring search: `containsSeq s pat` is true
iff `pat` occurs contiguously in `s` (JS `String.prototype.includes`). -/
def containsSeq : List Char → List Char → Bool
  | [], pat => pat.isEmpty
  | c :: rest, pat => pat.isPrefixOf (c :: rest) || containsSeq rest pat

/-- JS `s.includes(pat)`. -/
def strIncludes (s pat : String) : Bool := containsSeq s.data pat.data

/-- JS `s.toLowerCase()` (ASCII case mapping, which covers every character the
source compares against). -/
def toLowerStr (s : String) : String := ⟨s.data.map Char.toLower⟩

/-- JS `s.trim()`: strip whitespace from both ends. -/
def jsTrim (s : String) : String :=
  ⟨((s.data.dropWhile Char.isWhitespace).reverse.dropWhile Char.isWhitespace).reverse⟩

/-! ## Shell (`App.tsx`) -/

/-- The Shell's two independent strings: `streamUrl` is the active address
handed to the player (`<HlsPlayer src={streamUrl} />`), `urlInput` is the text
currently shown in the address field. -/
structure AppState where
  streamUrl : String
  urlInput : String
  deriving DecidableEq, Repr

/-- `handleUrlSubmit` (App.tsx lines 11-16): on form submit, if the trimmed
field text is truthy (non-empty) copy it into the active address, else do
nothing. -/
def handleUrlSubmit (a : AppState) : AppState :=
  if jsTrim a.urlInput ≠ "" then { a with streamUrl := jsTrim a.urlInput } else a

/-- The field text `onChange` handler (App.tsx line 100): updates only the
field text. -/
def setUrlInput (a : AppState) (t : String) : AppState := { a with urlInput := t }

/-! ## Player data model (`HlsPlayer`) -/

/-- One entry of the displayed quality list (the `QualityLevel` interface). -/
structure QualityLevel where
  height : Nat
  bitrate : Nat
  index : Nat
  name : String
  label : String
  deriving DecidableEq, Repr

/-- One rendition as reported by the adaptive client's manifest-parsed event:
the fields of `data.levels[i]` the component reads (`height`, `bitrate`, and
the truthiness of `details?.live`). -/
structure HlsLevel where
  height : Nat
  bitrate : Nat
  live : Bool
  deriving DecidableEq, Repr

/-- A media duration as read from `video.duration`: a finite time or
`Infinity`. -/
inductive MediaDuration where
  | finite (t : ℚ)
  | infinite
  deriving DecidableEq, Repr

/-- The React state of the `HlsPlayer` component, plus `hlsRef`: whether
`hlsRef.current` is non-null (an adaptive client reference is held). -/
structure PlayerState where
  isPlaying : Bool
  isMuted : Bool
  volume : ℚ
  isBuffering : Bool
  isFullscreen : Bool
  showControls : Bool
  error : Option String
  duration : MediaDuration
  currentTime : ℚ
  isLive : Bool
  qualities : List QualityLevel
  currentQualityIndex : Int
  showSettings : Bool
  hlsRef : Bool
  deriving DecidableEq, Repr

/-- The initial React state (the `useState` initialisers, lines 35-49). -/
def initialPlayerState : PlayerState where
  isPlaying := false
  isMuted := false
  volume := 1
  isBuffering := true
  isFullscreen := false
  showControls := true
  error := none
  duration := .finite 0
  currentTime := 0
  isLive := false
  qualities := []
  currentQualityIndex := -1
  showSettings := false
  hlsRef := false

/-- Commands the component issues to its collaborators (the hls.js client and
the native video element). -/
inductive PlayerCmd where
  | destroyHls
  | createHls (enableWorker lowLatencyMode : Bool) (startLevel : Int)
  | hlsLoadSource (src : String)
  | hlsAttachMedia
  | hlsStartLoad
  | hlsRecoverMediaError
  | hlsSetCurrentLevel (index : Int)
  | setVideoSrc (src : String)
  | videoLoad
  | videoPlay
  | setVideoVolume (v : ℚ)
  | setVideoMuted (m : Bool)
  deriving DecidableEq, Repr

/-- `getResolutionLabel` (lines 58-64). -/
def getResolutionLabel (height : Nat) : String :=
  if height ≥ 2160 then "4K"
  else if height ≥ 1440 then "2K"
  else if height ≥ 1080 then "FHD"
  else if height ≥ 720 then "HD"
  else "SD"

/-- The `isHlsSource` test of `loadVideo` (line 91). -/
def isHlsSource (src : String) : Bool :=
  strIncludes (toLowerStr src) ".m3u8" ||
    strIncludes (toLowerStr src) "application/vnd.apple.mpegurl"

/-- The three playback strategies of `loadVideo`. -/
inductive Strategy where
  | hlsJs
  | nativeHls
  | directFile
  deriving DecidableEq, Repr

/-- The strategy `loadVideo` picks (the if/else chain at lines 94, 144, 152),
given the two environment queries `Hls.isSupported()` and
`video.canPlayType('application/vnd.apple.mpegurl')`. -/
def selectStrategy (src : String) (hlsIsSupported canPlayNativeHls : Bool) : Strategy :=
  if isHlsSource src && hlsIsSupported then .hlsJs
  else if isHlsSource src && canPlayNativeHls then .nativeHls
  else .directFile

/-- `loadVideo` (lines 90-170): the synchronous state change and command
trace of the chosen strategy. Path 1 constructs the client (with
`enableWorker: true, lowLatencyMode: true, startLevel: -1`), stores it in
`hlsRef`, loads the source and attaches the media element. Path 2 assigns
`video.src`. Path 3 assigns `video.src`, calls `video.load()` and sets the
quality list to `[]`. -/
def loadVideo (s : PlayerState) (src : String) (hlsIsSupported canPlayNativeHls : Bool) :
    PlayerState × List PlayerCmd :=
  match selectStrategy src hlsIsSupported canPlayNativeHls with
  | .hlsJs =>
      ({ s with hlsRef := true },
       [.createHls true true (-1), .hlsLoadSource src, .hlsAttachMedia])
  | .nativeHls => (s, [.setVideoSrc src])
  | .directFile => ({ s with qualities := [] }, [.setVideoSrc src, .videoLoad])

/-- The setup effect body (lines 74-172), run on every media-address change:
reset the session state, destroy and drop any previous client reference, then
run `loadVideo`. -/
def setupPlayer (s : PlayerState) (src : String) (hlsIsSupported canPlayNativeHls : Bool) :
    PlayerState × List PlayerCmd :=
  let s1 := { s with
    isBuffering := true
    error := none
    qualities := []
    currentQualityIndex := -1
    isLive := false }
  let destroyCmds := if s.hlsRef then [PlayerCmd.destroyHls] else []
  let s2 := { s1 with hlsRef := false }
  let r := loadVideo s2 src hlsIsSupported canPlayNativeHls
  (r.1, destroyCmds ++ r.2)

/-- The mapper of the `MANIFEST_PARSED` handler (lines 109-115): one
rendition, paired with its original position `index`, becomes one
`QualityLevel` (the `name` uses the height when truthy, else `L<index>`). -/
def qualityOfLevel (p : Nat × HlsLevel) : QualityLevel where
  height := p.2.height
  bitrate := p.2.bitrate
  index := p.1
  name := if p.2.height ≠ 0 then toString p.2.height ++ "p" else "L" ++ toString p.1
  label := getResolutionLabel p.2.height

/-- The quality list built by the `MANIFEST_PARSED` handler (lines 109-117):
map each rendition to a `QualityLevel` carrying its original position as
`index`, then sort by descending height — the JS comparator
`(a, b) => b.height - a.height` under the (stable) `Array.prototype.sort`,
embedded as a stable sort under the relation `b.height ≤ a.height`. -/
def mkQualityLevels (lvls : List HlsLevel) : List QualityLevel :=
  (lvls.enum.map qualityOfLevel).insertionSort fun a b => b.height ≤ a.height

/-- The `MANIFEST_PARSED` handler (lines 105-124): clear buffering, set the
live flag from the renditions, install the quality list, then call
`video.play()` (whose rejection handler is `onHlsPlayRejected`). -/
def onManifestParsed (s : PlayerState) (lvls : List HlsLevel) : PlayerState × List PlayerCmd :=
  ({ s with
      isBuffering := false
      isLive := lvls.any fun level => level.live
      qualities := mkQualityLevels lvls },
   [.videoPlay])

/-- The `video.play().catch` of the `MANIFEST_PARSED` handler (lines
120-123): set playing to false and muted to true. -/
def onHlsPlayRejected (s : PlayerState) : PlayerState :=
  { s with isPlaying := false, isMuted := true }

/-- The `video.play().catch(() => setIsMuted(true))` of the native-HLS path
(line 148) and of the direct-file path (line 160): set muted to true only. -/
def onAutoplayRejectedMutedOnly (s : PlayerState) : PlayerState :=
  { s with isMuted := true }

/-- The error categories of `Hls.ErrorTypes` the handler switches on. -/
inductive HlsErrorType where
  | networkError
  | mediaError
  | keySystemError
  | muxError
  | otherError
  deriving DecidableEq, Repr

/-- The localized stream-connection-error message (line 137). -/
def streamErrorMessage : String := "خطأ في الاتصال بالبث"

/-- The `Hls.Events.ERROR` handler (lines 126-141): on a fatal network error
call `hls.startLoad()`; on a fatal media error call `hls.recoverMediaError()`;
on any other fatal error call `hls.destroy()` and set the localized message
(the ref is not nulled); non-fatal errors do nothing. -/
def onHlsError (s : PlayerState) (fatal : Bool) (t : HlsErrorType) :
    PlayerState × List PlayerCmd :=
  if fatal then
    match t with
    | .networkError => (s, [.hlsStartLoad])
    | .mediaError => (s, [.hlsRecoverMediaError])
    | _ => ({ s with error := some streamErrorMessage }, [.destroyHls])
  else (s, [])

/-- The `timeupdate` handler (lines 192-196): mirror `currentTime` and
`duration`, and set the live flag when the duration is `Infinity`. -/
def onTimeUpdate (s : PlayerState) (t : ℚ) (d : MediaDuration) : PlayerState :=
  { s with
      currentTime := t
      duration := d
      isLive := if d = .infinite then true else s.isLive }

/-- `handleVolumeChange` (lines 247-255): store the slider value, apply it to
the element, and set muted (on the element and in state) iff the value is
exactly zero. -/
def handleVolumeChange (s : PlayerState) (val : ℚ) : PlayerState × List PlayerCmd :=
  ({ s with volume := val, isMuted := decide (val = 0) },
   [.setVideoVolume val, .setVideoMuted (decide (val = 0))])

/-- `changeQuality` (lines 257-263): record the requested index as the
displayed selection, set `hls.currentLevel` only when a client reference is
held, and close the settings menu. -/
def changeQuality (s : PlayerState) (index : Int) : PlayerState × List PlayerCmd :=
  ({ s with currentQualityIndex := index, showSettings := false },
   if s.hlsRef then [.hlsSetCurrentLevel index] else [])

/-- Clicking the quality-menu button at display position `k` (line 434):
calls `changeQuality(q.index)` for the entry `q` shown at that position. -/
def menuQualityClick (s : PlayerState) (k : Fin s.qualities.length) :
    PlayerState × List PlayerCmd :=
  changeQuality s ((s.qualities.get k).index : Int)

/-! ## Render guards (what the JSX shows) -/

/-- The progress scrubber is rendered iff the live flag is clear
(line 332: `!isLive && ...`). -/
def scrubberShown (s : PlayerState) : Bool := !s.isLive

/-- The live badge is rendered iff the live flag is set (line 384). -/
def liveBadgeShown (s : PlayerState) : Bool := s.isLive

/-- The quality-settings button is rendered iff the quality list is non-empty
(line 400: `qualities.length > 0 && ...`). -/
def qualityButtonShown (s : PlayerState) : Bool := decide (s.qualities.length > 0)

/-- The error overlay is rendered iff an error message is present
(line 310). -/
def errorOverlayShown (s : PlayerState) : Bool := s.error.isSome

/-- The recovery affordances the error overlay offers. -/
inductive RecoveryAction where
  | reloadPage
  deriving DecidableEq, Repr

/-- The error overlay's only button reloads the whole page
(line 318: `window.location.reload()`). -/
def errorOverlayActions (s : PlayerState) : List RecoveryAction :=
  if s.error.isSome then [.reloadPage] else []

/-! ## Helper lemmas about the quality list -/

/-- Sorting does not change the number of quality entries. -/
theorem mkQualityLevels_length (lvls : List HlsLevel) :
    (mkQualityLevels lvls).length = lvls.length := by
  simp [mkQualityLevels, List.length_insertionSort, List.enum_length]

/-- Every displayed quality entry keeps the height, bitrate and derived label
of the rendition sitting at its `index` field in the original list. -/
theorem mem_mkQualityLevels {lvls : List HlsLevel} {q : QualityLevel}
    (hq : q ∈ mkQualityLevels lvls) :
    ∃ h : q.index < lvls.length,
      q.height = (lvls.get ⟨q.index, h⟩).height ∧
      q.bitrate = (lvls.get ⟨q.index, h⟩).bitrate ∧
      q.label = getResolutionLabel q.height := by
  have hmem : q ∈ lvls.enum.map qualityOfLevel :=
    (List.perm_insertionSort _ _).mem_iff.mp hq
  rcases List.mem_map.mp hmem with ⟨p, hp, hfp⟩
  rcases List.mem_iff_getElem.mp hp with ⟨i, hi, hip⟩
  have hlen : i < lvls.length := by simpa [List.enum_length] using hi
  rw [List.getElem_enum] at hip
  subst hip
  subst hfp
  exact ⟨hlen, rfl, rfl, rfl⟩

/-- The displayed quality list is sorted by descending height. -/
theorem mkQualityLevels_sorted (lvls : List HlsLevel) :
    List.Pairwise (fun a b : QualityLevel => b.height ≤ a.height) (mkQualityLevels lvls) := by
  haveI : IsTotal QualityLevel (fun a b => b.height ≤ a.height) :=
    ⟨fun a b => Nat.le_total b.height a.height⟩
  haveI : IsTrans QualityLevel (fun a b => b.height ≤ a.height) :=
    ⟨fun _ _ _ hab hbc => le_trans hbc hab⟩
  exact List.sorted_insertionSort _ (lvls.enum.map qualityOfLevel)

/-- The `index` fields of the displayed quality list are a permutation of the
original positions `0, ..., N-1`. -/
theorem mkQualityLevels_indices_perm (lvls : List HlsLevel) :
    ((mkQualityLevels lvls).map fun q => q.index).Perm (List.range lvls.length) := by
  have h1 := ((List.perm_insertionSort (fun a b : QualityLevel => b.height ≤ a.height)
      (lvls.enum.map qualityOfLevel)).map fun q => q.index)
  have h2 : ((lvls.enum.map qualityOfLevel).map fun q => q.index)
      = List.range lvls.length := by
    rw [List.map_map]
    exact List.enum_map_fst lvls
  exact h2 ▸ h1



/-! ## Claim theorems -/

/-- C1: for every media address, `loadVideo` picks the playback strategy by
first match in priority order: an HLS-looking address with engine support
attaches the adaptive client and begins loading; an HLS-looking address with
native support assigns the address as the element's source; anything else is
treated as a direct progressive file (source assigned and a load requested). -/
theorem loadVideo_strategy_priority (s : PlayerState) (src : String)
    (hlsIsSupported canPlayNativeHls : Bool) :
    (isHlsSource src = true → hlsIsSupported = true →
      selectStrategy src hlsIsSupported canPlayNativeHls = Strategy.hlsJs ∧
      (loadVideo s src hlsIsSupported canPlayNativeHls).2 =
        [PlayerCmd.createHls true true (-1), PlayerCmd.hlsLoadSource src,
         PlayerCmd.hlsAttachMedia] ∧
      (loadVideo s src hlsIsSupported canPlayNativeHls).1.hlsRef = true) ∧
    (isHlsSource src = true → hlsIsSupported = false → canPlayNativeHls = true →
      selectStrategy src hlsIsSupported canPlayNativeHls = Strategy.nativeHls ∧
      (loadVideo s src hlsIsSupported canPlayNativeHls).2 = [PlayerCmd.setVideoSrc src]) ∧
    (isHlsSource src = false ∨ (hlsIsSupported = false ∧ canPlayNativeHls = false) →
      selectStrategy src hlsIsSupported canPlayNativeHls = Strategy.directFile ∧
      (loadVideo s src hlsIsSupported canPlayNativeHls).2 =
        [PlayerCmd.setVideoSrc src, PlayerCmd.videoLoad]) := by
  refine ⟨fun h1 h2 => ?_, fun h1 h2 h3 => ?_, fun h => ?_⟩
  · simp [selectStrategy, loadVideo, h1, h2]
  · simp [selectStrategy, loadVideo, h1, h2, h3]
  · rcases h with h | ⟨h2, h3⟩
    · simp [selectStrategy, loadVideo, h]
    · simp [selectStrategy, loadVideo, h2, h3]

/-- C1 witness: the three priority cases at concrete addresses. -/
theorem loadVideo_strategy_priority_witness :
    (selectStrategy "https://a/x.m3u8" true false = Strategy.hlsJs ∧
      (loadVideo initialPlayerState "https://a/x.m3u8" true false).2 =
        [PlayerCmd.createHls true true (-1), PlayerCmd.hlsLoadSource "https://a/x.m3u8",
         PlayerCmd.hlsAttachMedia] ∧
      (loadVideo initialPlayerState "https://a/x.m3u8" true false).1.hlsRef = true) ∧
    (selectStrategy "https://a/x.m3u8" false true = Strategy.nativeHls ∧
      (loadVideo initialPlayerState "https://a/x.m3u8" false true).2 =
        [PlayerCmd.setVideoSrc "https://a/x.m3u8"]) ∧
    (selectStrategy "https://a/x.mp4" true true = Strategy.directFile ∧
      (loadVideo initialPlayerState "https://a/x.mp4" true true).2 =
        [PlayerCmd.setVideoSrc "https://a/x.mp4", PlayerCmd.videoLoad]) :=
  ⟨(loadVideo_strategy_priority initialPlayerState "https://a/x.m3u8" true false).1
      (by decide) rfl,
   (loadVideo_strategy_priority initialPlayerState "https://a/x.m3u8" false true).2.1
      (by decide) rfl rfl,
   (loadVideo_strategy_priority initialPlayerState "https://a/x.mp4" true true).2.2
      (Or.inl (by decide))⟩

/-- C3: on every media-address change, regardless of the previous state, the
setup effect destroys any previous adaptive client before any replacement is
created (the destroy command is the head of the command trace), clears the
quality list, resets the selection to the automatic sentinel, clears the
error and the live flag, and enters the buffering state. -/
theorem setupPlayer_resets_session (s : PlayerState) (src : String) (hs cp : Bool) :
    (setupPlayer s src hs cp).1.qualities = [] ∧
    (setupPlayer s src hs cp).1.currentQualityIndex = -1 ∧
    (setupPlayer s src hs cp).1.error = none ∧
    (setupPlayer s src hs cp).1.isLive = false ∧
    (setupPlayer s src hs cp).1.isBuffering = true ∧
    (s.hlsRef = true → (setupPlayer s src hs cp).2.head? = some PlayerCmd.destroyHls) ∧
    (s.hlsRef = false → PlayerCmd.destroyHls ∉ (setupPlayer s src hs cp).2) := by
  unfold setupPlayer loadVideo
  cases hst : selectStrategy src hs cp <;> cases hr : s.hlsRef <;> simp [hst, hr]

/-- C3 witness: a previously-playing adaptive session with a nonempty quality
list, a selection, an error and the live flag set is fully reset, and the
destroy command leads the trace. -/
theorem setupPlayer_resets_session_witness :
    ((setupPlayer { initialPlayerState with
        hlsRef := true
        qualities := [⟨1080, 2000000, 0, "1080p", "FHD"⟩]
        currentQualityIndex := 0
        error := some "x"
        isLive := true
        isBuffering := false } "https://a/y.m3u8" true true).2.head? =
      some PlayerCmd.destroyHls) ∧
    (setupPlayer { initialPlayerState with
        hlsRef := true
        qualities := [⟨1080, 2000000, 0, "1080p", "FHD"⟩]
        currentQualityIndex := 0
        error := some "x"
        isLive := true
        isBuffering := false } "https://a/y.m3u8" true true).1.qualities = [] :=
  ⟨(setupPlayer_resets_session _ "https://a/y.m3u8" true true).2.2.2.2.2.1 rfl,
   (setupPlayer_resets_session _ "https://a/y.m3u8" true true).1⟩

/-- C7: submitting the Shell form copies the trimmed field text into the
active address exactly when the trimmed text is non-empty (no URL validation
of any kind), leaves everything unchanged when it is empty, and never touches
the field text; editing the field never touches the active address. -/
theorem handleUrlSubmit_spec (a : AppState) :
    (jsTrim a.urlInput ≠ "" → (handleUrlSubmit a).streamUrl = jsTrim a.urlInput) ∧
    (jsTrim a.urlInput = "" → handleUrlSubmit a = a) ∧
    (handleUrlSubmit a).urlInput = a.urlInput ∧
    (∀ t : String, (setUrlInput a t).streamUrl = a.streamUrl ∧
      (setUrlInput a t).urlInput = t) := by
  unfold handleUrlSubmit setUrlInput
  by_cases h : jsTrim a.urlInput = "" <;> simp [h]

/-- C7 witness: a syntactically invalid address is still copied verbatim
(trimmed), and a whitespace-only submission changes nothing. -/
theorem handleUrlSubmit_spec_witness :
    (handleUrlSubmit ⟨"old", " not a url "⟩).streamUrl = "not a url" ∧
    handleUrlSubmit ⟨"old", "   "⟩ = ⟨"old", "   "⟩ :=
  ⟨((handleUrlSubmit_spec ⟨"old", " not a url "⟩).1 (by decide)).trans (by decide),
   (handleUrlSubmit_spec ⟨"old", "   "⟩).2.1 (by decide)⟩

/-- C2: on the adaptive-client path, after a manifest-parsed event carrying
`N` renditions the displayed quality list has exactly `N` entries, is sorted
by descending height, the selection is the automatic sentinel `-1`, each
entry's tier label is the fixed-threshold function of its height
(≥2160 → 4K, ≥1440 → 2K, ≥1080 → FHD, ≥720 → HD, else SD), and an adaptive
client is indeed attached. -/
theorem manifestParsed_quality_list (s : PlayerState) (src : String) (cp : Bool)
    (lvls : List HlsLevel) (hsrc : isHlsSource src = true) :
    (onManifestParsed (setupPlayer s src true cp).1 lvls).1.qualities.length = lvls.length ∧
    List.Pairwise (fun a b : QualityLevel => b.height ≤ a.height)
      (onManifestParsed (setupPlayer s src true cp).1 lvls).1.qualities ∧
    (onManifestParsed (setupPlayer s src true cp).1 lvls).1.currentQualityIndex = -1 ∧
    (∀ q ∈ (onManifestParsed (setupPlayer s src true cp).1 lvls).1.qualities,
      q.label = (if 2160 ≤ q.height then "4K" else if 1440 ≤ q.height then "2K"
        else if 1080 ≤ q.height then "FHD" else if 720 ≤ q.height then "HD" else "SD")) ∧
    (setupPlayer s src true cp).1.hlsRef = true := by
  have hq : (onManifestParsed (setupPlayer s src true cp).1 lvls).1.qualities
      = mkQualityLevels lvls := rfl
  refine ⟨?_, ?_, ?_, ?_, ?_⟩
  · rw [hq]; exact mkQualityLevels_length lvls
  · rw [hq]; exact mkQualityLevels_sorted lvls
  · show (setupPlayer s src true cp).1.currentQualityIndex = -1
    exact (setupPlayer_resets_session s src true cp).2.1
  · rw [hq]
    intro q hmem
    rcases mem_mkQualityLevels hmem with ⟨h, _, _, hlab⟩
    rw [hlab]
    rfl
  · unfold setupPlayer loadVideo selectStrategy
    simp [hsrc]

/-- C2 witness: a concrete two-rendition manifest on an adaptive session. -/
theorem manifestParsed_quality_list_witness :
    (onManifestParsed (setupPlayer initialPlayerState "a.m3u8" true false).1
      [⟨720, 1000000, false⟩, ⟨2160, 8000000, false⟩]).1.qualities.length = 2 ∧
    (onManifestParsed (setupPlayer initialPlayerState "a.m3u8" true false).1
      [⟨720, 1000000, false⟩, ⟨2160, 8000000, false⟩]).1.currentQualityIndex = -1 :=
  ⟨(manifestParsed_quality_list initialPlayerState "a.m3u8" false
      [⟨720, 1000000, false⟩, ⟨2160, 8000000, false⟩] (by decide)).1,
   (manifestParsed_quality_list initialPlayerState "a.m3u8" false
      [⟨720, 1000000, false⟩, ⟨2160, 8000000, false⟩] (by decide)).2.2.1⟩

/-- C4: a fatal network error makes the player command a loading resume and
changes no state; a fatal media error makes it command a media-pipeline
recovery and changes no state; any other fatal category destroys the client
and sets the non-empty localized stream-connection-error message, with no
play command ever issued by the handler and a full page reload as the only
recovery the error overlay offers; non-fatal errors change nothing. -/
theorem onHlsError_policy (s : PlayerState) (t : HlsErrorType) (fatal : Bool) :
    onHlsError s true HlsErrorType.networkError = (s, [PlayerCmd.hlsStartLoad]) ∧
    onHlsError s true HlsErrorType.mediaError = (s, [PlayerCmd.hlsRecoverMediaError]) ∧
    (t ≠ HlsErrorType.networkError → t ≠ HlsErrorType.mediaError →
      (onHlsError s true t).1.error = some streamErrorMessage ∧
      streamErrorMessage ≠ "" ∧
      (onHlsError s true t).2 = [PlayerCmd.destroyHls] ∧
      errorOverlayShown (onHlsError s true t).1 = true ∧
      errorOverlayActions (onHlsError s true t).1 = [RecoveryAction.reloadPage]) ∧
    PlayerCmd.videoPlay ∉ (onHlsError s fatal t).2 ∧
    onHlsError s false t = (s, []) := by
  refine ⟨rfl, rfl, fun h1 h2 => ?_, ?_, rfl⟩
  · cases t with
    | networkError => exact absurd rfl h1
    | mediaError => exact absurd rfl h2
    | keySystemError => exact ⟨rfl, by decide, rfl, rfl, rfl⟩
    | muxError => exact ⟨rfl, by decide, rfl, rfl, rfl⟩
    | otherError => exact ⟨rfl, by decide, rfl, rfl, rfl⟩
  · cases fatal <;> cases t <;> simp [onHlsError]

/-- C4 witness: the generic fatal category at a concrete state. -/
theorem onHlsError_policy_witness :
    (onHlsError initialPlayerState true HlsErrorType.otherError).1.error =
      some streamErrorMessage ∧
    streamErrorMessage ≠ "" ∧
    (onHlsError initialPlayerState true HlsErrorType.otherError).2 =
      [PlayerCmd.destroyHls] ∧
    errorOverlayShown (onHlsError initialPlayerState true HlsErrorType.otherError).1 = true ∧
    errorOverlayActions (onHlsError initialPlayerState true HlsErrorType.otherError).1 =
      [RecoveryAction.reloadPage] :=
  (onHlsError_policy initialPlayerState HlsErrorType.otherError true).2.2.1
    (by decide) (by decide)

/-- C8: a volume-slider change to `v` sets the element's volume and the
displayed volume to `v`, and sets muted (on the element and in state) exactly
when `v` is zero: `v = 0` forces muted, any `v > 0` un-mutes even a
previously muted player. -/
theorem handleVolumeChange_spec (s : PlayerState) (v : ℚ) :
    (handleVolumeChange s v).1.volume = v ∧
    ((handleVolumeChange s v).1.isMuted = true ↔ v = 0) ∧
    (handleVolumeChange s v).2 =
      [PlayerCmd.setVideoVolume v, PlayerCmd.setVideoMuted (decide (v = 0))] ∧
    (v = 0 → (handleVolumeChange s v).1.isMuted = true) ∧
    (0 < v → s.isMuted = true → (handleVolumeChange s v).1.isMuted = false) := by
  refine ⟨rfl, ?_, rfl, fun h => ?_, fun h _ => ?_⟩
  · simp [handleVolumeChange]
  · simp [handleVolumeChange, h]
  · simp [handleVolumeChange]
    exact ne_of_gt h

/-- C8 witness: zero forces muted; one half un-mutes a muted player. -/
theorem handleVolumeChange_spec_witness :
    (handleVolumeChange initialPlayerState 0).1.isMuted = true ∧
    (handleVolumeChange { initialPlayerState with isMuted := true } (1/2)).1.isMuted = false :=
  ⟨(handleVolumeChange_spec initialPlayerState 0).2.2.2.1 rfl,
   (handleVolumeChange_spec { initialPlayerState with isMuted := true } (1/2)).2.2.2.2
      (by norm_num) rfl⟩

/-- C9: a time-update reporting an unbounded duration marks the stream live,
and while the live flag is set the progress scrubber is not rendered and the
live indicator is rendered instead. -/
theorem onTimeUpdate_live_spec (s : PlayerState) (t : ℚ) :
    (onTimeUpdate s t MediaDuration.infinite).isLive = true ∧
    (onTimeUpdate s t MediaDuration.infinite).currentTime = t ∧
    (onTimeUpdate s t MediaDuration.infinite).duration = MediaDuration.infinite ∧
    (∀ s2 : PlayerState, s2.isLive = true →
      scrubberShown s2 = false ∧ liveBadgeShown s2 = true) := by
  refine ⟨?_, rfl, rfl, fun s2 h => ⟨?_, h⟩⟩
  · simp [onTimeUpdate]
  · simp [scrubberShown, h]

/-- C9 witness: a concrete unbounded-duration time update, and the render
guards at a live state. -/
theorem onTimeUpdate_live_spec_witness :
    (onTimeUpdate initialPlayerState 5 MediaDuration.infinite).isLive = true ∧
    scrubberShown { initialPlayerState with isLive := true } = false ∧
    liveBadgeShown { initialPlayerState with isLive := true } = true :=
  ⟨(onTimeUpdate_live_spec initialPlayerState 5).1,
   ((onTimeUpdate_live_spec initialPlayerState 5).2.2.2 _ rfl).1,
   ((onTimeUpdate_live_spec initialPlayerState 5).2.2.2 _ rfl).2⟩

/-- C5 counterexample: with no adaptive client held, the quality-change
operation is not a no-op: beyond closing the menu it still changes the
displayed selection (from the automatic sentinel to the requested index). -/
theorem changeQuality_without_client_not_noop :
    initialPlayerState.hlsRef = false ∧
    initialPlayerState.currentQualityIndex = -1 ∧
    (changeQuality initialPlayerState 2).1.currentQualityIndex = 2 ∧
    (changeQuality initialPlayerState 2).1 ≠
      { initialPlayerState with showSettings := false } := by
  refine ⟨rfl, rfl, rfl, ?_⟩
  decide

/-- C5 (amended): the quality-change operation always records the requested
index (or the automatic sentinel) as the displayed selection and closes the
menu; it commands the adaptive client exactly when a client reference is
held, and issues no command otherwise; all other state is untouched; the
button offering it is hidden whenever the quality list is empty, as it is
right after any address change whose strategy did not create an adaptive
client. -/
theorem changeQuality_spec (s : PlayerState) (i : Int) (src : String) (hs cp : Bool) :
    (changeQuality s i).1.currentQualityIndex = i ∧
    (changeQuality s i).1.showSettings = false ∧
    (s.hlsRef = true → (changeQuality s i).2 = [PlayerCmd.hlsSetCurrentLevel i]) ∧
    (s.hlsRef = false → (changeQuality s i).2 = []) ∧
    (changeQuality s i).1.qualities = s.qualities ∧
    (changeQuality s i).1.error = s.error ∧
    (changeQuality s i).1.isPlaying = s.isPlaying ∧
    (changeQuality s i).1.hlsRef = s.hlsRef ∧
    (s.qualities = [] → qualityButtonShown s = false) ∧
    (selectStrategy src hs cp ≠ Strategy.hlsJs →
      (setupPlayer s src hs cp).1.hlsRef = false ∧
      qualityButtonShown (setupPlayer s src hs cp).1 = false) := by
  refine ⟨rfl, rfl, fun h => ?_, fun h => ?_, rfl, rfl, rfl, rfl, fun h => ?_, fun h => ?_⟩
  · simp [changeQuality, h]
  · simp [changeQuality, h]
  · simp [qualityButtonShown, h]
  · unfold setupPlayer loadVideo
    cases hst : selectStrategy src hs cp with
    | hlsJs => exact absurd hst h
    | nativeHls => simp [hst, qualityButtonShown]
    | directFile => simp [hst, qualityButtonShown]

/-- C5 witness: with a client the command carries the requested index; without
one no command is issued; a direct-file session hides the button. -/
theorem changeQuality_spec_witness :
    (changeQuality { initialPlayerState with hlsRef := true } 0).2 =
      [PlayerCmd.hlsSetCurrentLevel 0] ∧
    (changeQuality initialPlayerState (-1)).2 = [] ∧
    qualityButtonShown initialPlayerState = false ∧
    (setupPlayer initialPlayerState "x.mp4" true true).1.hlsRef = false ∧
    qualityButtonShown (setupPlayer initialPlayerState "x.mp4" true true).1 = false := by
  have h1 := changeQuality_spec { initialPlayerState with hlsRef := true } 0 "x.mp4" true true
  have h2 := changeQuality_spec initialPlayerState (-1) "x.mp4" true true
  have h3 := h2.2.2.2.2.2.2.2.2.2 (by decide)
  exact ⟨h1.2.2.1 rfl, h2.2.2.2.1 rfl, h2.2.2.2.2.2.2.2.2.1 rfl, h3.1, h3.2⟩

/-- C6 counterexample: on the native and progressive paths the rejection
handler only mutes; applied to a state whose playing flag is set it leaves
the flag set, so the claimed paused+muted fallback does not hold on every
strategy path. -/
theorem nativeAutoplayRejected_playing_flag_counterexample :
    (onAutoplayRejectedMutedOnly { initialPlayerState with isPlaying := true }).isPlaying
      = true ∧
    (onAutoplayRejectedMutedOnly { initialPlayerState with isPlaying := true }).isMuted
      = true :=
  ⟨rfl, rfl⟩

/-- C6 (amended): a rejected autoplay attempt never sets an error message;
on the adaptive-client path it sets the playing flag to false and the muted
flag to true; on the native and progressive paths it sets only the muted
flag, leaving the playing flag unchanged — hence false whenever it was
already false (as it is when no play event has fired in the session). -/
theorem autoplayRejected_fallback (s : PlayerState) :
    (onHlsPlayRejected s).isPlaying = false ∧
    (onHlsPlayRejected s).isMuted = true ∧
    (onHlsPlayRejected s).error = s.error ∧
    (onAutoplayRejectedMutedOnly s).isMuted = true ∧
    (onAutoplayRejectedMutedOnly s).isPlaying = s.isPlaying ∧
    (onAutoplayRejectedMutedOnly s).error = s.error ∧
    (s.isPlaying = false → (onAutoplayRejectedMutedOnly s).isPlaying = false) :=
  ⟨rfl, rfl, rfl, rfl, rfl, rfl, fun h => h⟩

/-- C6 witness: on the fresh state the muted-only fallback leaves the playing
flag false. -/
theorem autoplayRejected_fallback_witness :
    (onAutoplayRejectedMutedOnly initialPlayerState).isPlaying = false ∧
    (onAutoplayRejectedMutedOnly initialPlayerState).isMuted = true :=
  ⟨(autoplayRejected_fallback initialPlayerState).2.2.2.2.2.2 rfl,
   (autoplayRejected_fallback initialPlayerState).2.2.2.1⟩

/-- C10: every displayed quality entry keeps in its `index` field the
position of its rendition in the adaptive client's original rendition list —
the descending sort permutes entries but never rewrites an `index` (the
`index` fields are exactly a permutation of `0, ..., N-1`, and each entry's
height/bitrate are those of the original rendition at its `index`) — and
clicking the entry shown at any display position commands the client with
that original `index`, not with the display position. -/
theorem quality_index_preservation (lvls : List HlsLevel) (s : PlayerState) :
    (∀ q ∈ mkQualityLevels lvls, ∃ h : q.index < lvls.length,
        q.height = (lvls.get ⟨q.index, h⟩).height ∧
        q.bitrate = (lvls.get ⟨q.index, h⟩).bitrate) ∧
    ((mkQualityLevels lvls).map fun q => q.index).Perm (List.range lvls.length) ∧
    (s.hlsRef = true → ∀ k : Fin s.qualities.length,
        (menuQualityClick s k).2 =
          [PlayerCmd.hlsSetCurrentLevel ((s.qualities.get k).index : Int)]) := by
  refine ⟨fun q hq => ?_, mkQualityLevels_indices_perm lvls, fun h k => ?_⟩
  · rcases mem_mkQualityLevels hq with ⟨hlt, hh, hb, _⟩
    exact ⟨hlt, hh, hb⟩
  · simp [menuQualityClick, changeQuality, h]

/-- C10 witness: two renditions (720 then 1080) sort to display order
(1080 then 720); clicking display position 0 commands original index 1. -/
theorem quality_index_preservation_witness :
    (menuQualityClick { initialPlayerState with
        hlsRef := true
        qualities := mkQualityLevels [⟨720, 1000000, false⟩, ⟨1080, 2000000, false⟩] }
      ⟨0, by decide⟩).2 = [PlayerCmd.hlsSetCurrentLevel 1] := by
  have h := (quality_index_preservation [⟨720, 1000000, false⟩, ⟨1080, 2000000, false⟩]
      { initialPlayerState with
        hlsRef := true
        qualities := mkQualityLevels [⟨720, 1000000, false⟩, ⟨1080, 2000000, false⟩] }).2.2
    rfl ⟨0, by decide⟩
  exact h.trans (by decide)

end StreamFlow
